import Mathlib

/-!
A shallow embedding of the core pipeline of the `apartment-finder` repository
(`scraper.py`, `location_helper.py`, `condition.py`) and proofs about it.

Modelling decisions, used throughout:

* Python strings are modelled as `List Char` (named `PyStr`), because the
  claims need executable, kernel-reducible string operations.  The helper
  functions `pyStrip`, `pyLower`, `pySplit`, `pyRemoveDollar`, `pyInStr`
  model `str.strip()`, `str.lower()`, `re.split` with a single-character
  class, `str.replace("$", "")` and the Python `in` substring test.
* Python floats are modelled as rationals (`ℚ`).  `parsePyFloat` models the
  built-in `float(str)` conversion on finite decimal literals (optional
  sign, digits with an optional fractional part and an optional exponent);
  inputs that do not match raise `ValueError` in Python, modelled as
  `none`.  The `inf`/`nan` spellings are omitted as irrelevant here.
* Exceptions are modelled with `Except PyError`; an escaping exception is an
  `Except.error` value that propagates.
-/

/-- The Python exceptions that the embedded code can raise. -/
inductive PyError where
  | valueError
  | zeroDivisionError
  | attributeError
  | keyError
  deriving DecidableEq

/-- Python `str`, modelled as its list of characters. -/
abbrev PyStr := List Char

/-- The apostrophe character (codepoint 39), written via `Char.ofNat`. -/
def apos : Char := Char.ofNat 39

/-- Model of Python `str.strip()`: drop whitespace from both ends. -/
def pyStrip (s : PyStr) : PyStr :=
  ((s.dropWhile Char.isWhitespace).reverse.dropWhile Char.isWhitespace).reverse

/-- Model of Python `str.lower()` (ASCII case folding). -/
def pyLower (s : PyStr) : PyStr := s.map Char.toLower

/-- Model of `re.split` with a single-character class: split `s` at every
character satisfying `p`, keeping empty pieces (as `re.split` does). -/
def pySplit (p : Char → Bool) : PyStr → List PyStr
  | [] => [[]]
  | c :: r =>
    match pySplit p r, p c with
    | rest, true => [] :: rest
    | [], false => [[c]]
    | h :: t, false => (c :: h) :: t

/-- Model of `s.replace("$", "")`: replacing each occurrence of the
one-character pattern `"$"` by the empty string removes every `'$'`. -/
def pyRemoveDollar (s : PyStr) : PyStr := s.filter (fun c => c ≠ '$')

/-- `needle` is a prefix of `haystack`. -/
def pyStartsWith : PyStr → PyStr → Bool
  | [], _ => true
  | _ :: _, [] => false
  | a :: as, b :: bs => a = b && pyStartsWith as bs

/-- Model of the Python substring test `needle in haystack`. -/
def pyInStr (needle haystack : PyStr) : Bool :=
  match haystack with
  | [] => needle.isEmpty
  | _ :: t => pyStartsWith needle haystack || pyInStr needle t

/-- The value of a list of decimal digit characters. -/
def digitsToNat (ds : List Char) : ℕ :=
  ds.foldl (fun n c => 10 * n + (c.toNat - '0'.toNat)) 0

/-- Model of the exponent suffix of a Python float literal: empty input means
exponent `0`; otherwise `e`/`E`, an optional sign and at least one digit,
consuming the whole rest of the input. -/
def readExp : PyStr → Option ℤ
  | [] => some 0
  | c :: r =>
    if c = 'e' ∨ c = 'E' then
      let (sg, r') := match r with
        | '+' :: r' => ((1 : ℤ), r')
        | '-' :: r' => ((-1 : ℤ), r')
        | _ => ((1 : ℤ), r)
      let (ed, rest) := r'.span Char.isDigit
      if ed.isEmpty ∨ ¬ rest.isEmpty then none
      else some (sg * (digitsToNat ed : ℤ))
    else none

/-- Model of Python `float(s)` on finite decimal literals: surrounding
whitespace is stripped, then an optional sign, an integer part and/or a
fractional part (at least one digit between them), and an optional
exponent.  Any other input raises `ValueError`, modelled as `none`. -/
def parsePyFloat (s0 : PyStr) : Option ℚ :=
  let s := pyStrip s0
  let (sg, s) := match s with
    | '+' :: r => ((1 : ℚ), r)
    | '-' :: r => ((-1 : ℚ), r)
    | _ => ((1 : ℚ), s)
  let (ip, s) := s.span Char.isDigit
  let (fp, s) := match s with
    | '.' :: r => r.span Char.isDigit
    | _ => (([] : PyStr), s)
  if ip.isEmpty ∧ fp.isEmpty then none
  else
    match readExp s with
    | none => none
    | some e =>
        some (sg * ((digitsToNat ip : ℚ) + (digitsToNat fp : ℚ) / 10 ^ fp.length)
          * (10 : ℚ) ^ e)

/-- The separator class of `re.split(r"[^\w\s']", locations_str)` in
`location_helper.parse_locations`: any character that is not a word
character (`\w` = letters, digits, underscore), not whitespace and not an
apostrophe. -/
def pySepChar (c : Char) : Bool :=
  ¬ (c.isAlpha ∨ c.isDigit ∨ c = '_' ∨ c.isWhitespace ∨ c = apos)

/-- The attribute access `location.tolower()` in
`location_helper.parse_locations`: Python `str` has no attribute `tolower`
(the actual method is named `lower`), so the call raises `AttributeError`
for every receiver. -/
def str_tolower (_ : PyStr) : Except PyError PyStr :=
  Except.error PyError.attributeError

/-- The filtering loop of `location_helper.parse_locations`
(`location_helper.py` lines 89-94): strip each raw fragment, skip empty
fragments, and append `location.tolower()` for the surviving ones. -/
def filter_locations_loop : List PyStr → Except PyError (List PyStr)
  | [] => Except.ok []
  | loc :: raws =>
    let loc := pyStrip loc
    if loc.isEmpty then filter_locations_loop raws
    else
      match str_tolower loc with
      | Except.error e => Except.error e
      | Except.ok lowered =>
        match filter_locations_loop raws with
        | Except.error e => Except.error e
        | Except.ok locs => Except.ok (lowered :: locs)

/-- `location_helper.parse_locations` (`location_helper.py` lines 74-95):
an empty (falsy) string is rejected by the data-validation guard and
yields `[]`; otherwise the string is split on the separator class and the
fragments run through the filtering loop. -/
def parse_locations (locations_str : PyStr) : Except PyError (List PyStr) :=
  if locations_str.isEmpty then Except.ok []
  else filter_locations_loop (pySplit pySepChar locations_str)

/-!
## The scraper pipeline (`scraper.py`)

A Craigslist result dictionary is modelled by `RawListing`.  The `geotag`
and `where` fields can be `None` in the source, hence `Option`; the `lat`,
`lon` and `area` keys are absent until the pipeline writes them, hence
`Option` with `none` for "key not present".  The craigslist client is
external; a cycle's fetched batch is just a `List RawListing` argument.
The external geocoding collaborator (`location_helper.get_geocode`, a
network call) is a function parameter `geocode`; a `Condition` object is
its `check` method, a function `RawListing → Bool` (conditions hold no
state, see `condition.py`).
-/

/-- A Craigslist result dictionary as consumed by `Scraper.scrape_area`. -/
structure RawListing where
  id : ℕ
  name : PyStr
  url : PyStr
  datetime : PyStr
  price : PyStr
  geotag : Option (ℚ × ℚ)
  whereLoc : Option PyStr
  lat : Option ℚ
  lon : Option ℚ
  area : Option PyStr

/-- A row of the `listings` table (`scraper.py` lines 17-35), as built by
`Scraper._create_listing_entity`.  `created` keeps the raw timestamp text
(`dateutil.parser.parse` is external and order-irrelevant here). -/
structure ListingEntity where
  link : PyStr
  created : PyStr
  lat : ℚ
  lon : ℚ
  name : PyStr
  price : ℚ
  location : Option PyStr
  cl_id : ℕ
  area : PyStr

/-- The `listings` table reached through the module-level SQLAlchemy
session; rows are appended by `session.add` + `session.commit`. -/
structure ListingsDB where
  rows : List ListingEntity

/-- `session.query(Listing).filter_by(cl_id=clId).first()`
(`scraper.py` line 116): the first row with the given `cl_id`, if any. -/
def query_by_cl_id (db : ListingsDB) (clId : ℕ) : Option ListingEntity :=
  db.rows.find? (fun e => e.cl_id == clId)

/-- `Scraper._create_listing_entity` (`scraper.py` lines 212-249).  The
`None` data-validation branch cannot trigger inside `scrape_area`.  The
price is parsed inside `try: ... except OverflowError: pass`; since
`float` on a string never raises `OverflowError`, a parse failure raises
`ValueError`, which this `except` clause does not catch, so it escapes.
On success the listing dictionary's `area` key is set to `"Seattle"` and
the entity is built; the mutated dictionary is returned alongside it. -/
def create_listing_entity (listing : RawListing) :
    Except PyError (ListingEntity × RawListing) :=
  let lat : ℚ := match listing.geotag with | some g => g.1 | none => 0
  let lon : ℚ := match listing.geotag with | some g => g.2 | none => 0
  match parsePyFloat (pyRemoveDollar listing.price) with
  | none => Except.error PyError.valueError
  | some price =>
    let listing := { listing with area := some "Seattle".data }
    Except.ok
      ({ link := listing.url
         created := listing.datetime
         lat := lat
         lon := lon
         name := listing.name
         price := price
         location := listing.whereLoc
         cl_id := listing.id
         area := "Seattle".data }, listing)

/-- `Scraper.update_geographic_information` (`scraper.py` lines 174-210).
If a geotag is present, `lat`/`lon` are copied from it verbatim and the
function returns at once, calling no collaborator.  Otherwise the `where`
text (when present) is tokenized by `parse_locations`, each fragment is
geocoded, and the mean coordinate is taken; with zero fragments the
division `avg_lat / count` raises `ZeroDivisionError`.  The
data-validation branch for a falsy listing cannot trigger here (the
dictionaries always carry keys). -/
def update_geographic_information (geocode : PyStr → ℚ × ℚ)
    (listing : RawListing) : Except PyError RawListing :=
  match listing.geotag with
  | some g => Except.ok { listing with lat := some g.1, lon := some g.2 }
  | none =>
    match (match listing.whereLoc with
           | some w => parse_locations w
           | none => Except.ok []) with
    | Except.error e => Except.error e
    | Except.ok locations =>
      let s := locations.foldl
        (fun (acc : ℚ × ℚ × ℕ) loc =>
          let g := geocode loc
          (acc.1 + g.1, acc.2.1 + g.2, acc.2.2 + 1))
        ((0 : ℚ), (0 : ℚ), (0 : ℕ))
      if s.2.2 = 0 then Except.error PyError.zeroDivisionError
      else Except.ok
        { listing with lat := some (s.1 / s.2.2), lon := some (s.2.1 / s.2.2) }

/-- The condition loop of `Scraper.scrape_area` (`scraper.py` lines
128-137): `is_good_listing` starts `True`; each condition is checked in
registration order; the loop breaks with `False` at the first rejecting
condition. -/
def check_conditions (conditions : List (RawListing → Bool))
    (listing : RawListing) : Bool :=
  match conditions with
  | [] => true
  | condition :: rest =>
    if condition listing then check_conditions rest listing else false

/-- The body of the `for listing in listings` loop of `Scraper.scrape_area`
(`scraper.py` lines 114-144) for one listing: skip if the `cl_id` is
already in the database; otherwise create and commit the entity, enrich,
check conditions and append good listings to `results`.  The database
component is returned even when an exception escapes, because the commit
has already durably happened when the later steps run. -/
def process_listing (geocode : PyStr → ℚ × ℚ)
    (conditions : List (RawListing → Bool)) (db : ListingsDB)
    (results : List RawListing) (listing : RawListing) :
    ListingsDB × Except PyError (List RawListing) :=
  match query_by_cl_id db listing.id with
  | some _ => (db, Except.ok results)
  | none =>
    match create_listing_entity listing with
    | Except.error e => (db, Except.error e)
    | Except.ok (entity, listing) =>
      let db : ListingsDB := ⟨db.rows ++ [entity]⟩
      match update_geographic_information geocode listing with
      | Except.error e => (db, Except.error e)
      | Except.ok listing =>
        if check_conditions conditions listing
        then (db, Except.ok (results ++ [listing]))
        else (db, Except.ok results)

/-- The `for listing in listings` loop of `Scraper.scrape_area`, threading
the database and the `results` accumulator; an escaping exception stops
the loop (and the whole batch). -/
def scrape_area_loop (geocode : PyStr → ℚ × ℚ)
    (conditions : List (RawListing → Bool)) :
    ListingsDB → List RawListing → List RawListing →
    ListingsDB × Except PyError (List RawListing)
  | db, results, [] => (db, Except.ok results)
  | db, results, listing :: rest =>
    match process_listing geocode conditions db results listing with
    | (db', Except.ok results') =>
        scrape_area_loop geocode conditions db' results' rest
    | (db', Except.error e) => (db', Except.error e)

/-- `Scraper.scrape_area` (`scraper.py` lines 98-147) on an already fetched
batch (the craigslist client is external): run the per-listing loop with
an empty `results` accumulator. -/
def scrape_area (geocode : PyStr → ℚ × ℚ)
    (conditions : List (RawListing → Bool)) (db : ListingsDB)
    (listings : List RawListing) :
    ListingsDB × Except PyError (List RawListing) :=
  scrape_area_loop geocode conditions db [] listings

/-!
## Geometry and points of interest (`location_helper.py`)

`coord_distance` computes the haversine great-circle distance with
`math.sin`/`cos`/`asin`/`sqrt`; being transcendental it is not executable
over `ℚ`, so `find_points_of_interest` takes the distance function as the
parameter `dist` (the claims here concern the bookkeeping around the
distances, not the formula itself).  The module-level configuration
`settings.BOXES`, `settings.TRANSIT_STATIONS`, `settings.MAX_TRANSIT_DIST`
and `settings.NEIGHBORHOODS` is gathered in `PoiSettings`.
-/

/-- The configured reference data read from `settings` by
`location_helper.find_points_of_interest`. -/
structure PoiSettings where
  boxes : List (PyStr × ((ℚ × ℚ) × (ℚ × ℚ)))
  transit_stations : List (PyStr × (ℚ × ℚ))
  max_transit_dist : ℚ
  neighborhoods : List PyStr

/-- `location_helper.in_box` (`location_helper.py` lines 114-123):
`box[0][0] < coords[0] < box[1][0] and box[1][1] < coords[1] < box[0][1]`,
where `box.1` is the bottom-left corner and `box.2` the top-right one. -/
def in_box (coords : ℚ × ℚ) (box : (ℚ × ℚ) × (ℚ × ℚ)) : Bool :=
  if box.1.1 < coords.1 ∧ coords.1 < box.2.1 ∧
     box.2.2 < coords.2 ∧ coords.2 < box.1.2
  then true else false

/-- The Python test `min_dist is None or dist < min_dist` from the transit
loop of `find_points_of_interest`. -/
def below_min (d : ℚ) : Option ℚ → Prop
  | none => True
  | some m => d < m

instance (d : ℚ) (o : Option ℚ) : Decidable (below_min d o) :=
  match o with
  | none => Decidable.isTrue trivial
  | some m => inferInstanceAs (Decidable (d < m))

/-- The result dictionary of `find_points_of_interest`.  `bart_dist` starts
as the string `"N/A"` in the source and is overwritten with a number;
this heterogeneous value is modelled as `Option ℚ` with `none` for
`"N/A"`. -/
structure PoiResult where
  area_found : Bool
  area : PyStr
  near_bart : Bool
  bart_dist : Option ℚ
  bart : PyStr

/-- `location_helper.find_points_of_interest` (`location_helper.py` lines
125-168).  Box loop: the last box containing the geotag wins.  Transit
loop state `(min_dist, near_bart, bart_dist, bart)`: `min_dist` is
initialized to `None` and — exactly as in the source — never reassigned;
each iteration tests `min_dist is None or dist < min_dist` twice, once
together with `dist < MAX_TRANSIT_DIST` guarding `bart`/`near_bart` and
once guarding `bart_dist`.  Afterwards, if `area` is still empty, the
neighborhood substring fallback runs (without `break`). -/
def find_points_of_interest (dist : (ℚ × ℚ) → (ℚ × ℚ) → ℚ)
    (s : PoiSettings) (geotag : ℚ × ℚ) (location : PyStr) : PoiResult :=
  let ab := s.boxes.foldl
    (fun (ac : Bool × PyStr) b => if in_box geotag b.2 then (true, b.1) else ac)
    (false, ([] : PyStr))
  let st := s.transit_stations.foldl
    (fun (ac : Option ℚ × Bool × Option ℚ × PyStr) station =>
      let min_dist := ac.1
      let d := dist station.2 geotag
      let bn : PyStr × Bool :=
        if below_min d min_dist ∧ d < s.max_transit_dist
        then (station.1, true) else (ac.2.2.2, ac.2.1)
      let bart_dist := if below_min d min_dist then some d else ac.2.2.1
      (min_dist, bn.2, bart_dist, bn.1))
    ((none : Option ℚ), false, (none : Option ℚ), ([] : PyStr))
  let area := if ab.2.length = 0 then
      s.neighborhoods.foldl
        (fun a hood => if pyInStr hood (pyLower location) then hood else a) ab.2
    else ab.2
  { area_found := ab.1
    area := area
    near_bart := st.2.1
    bart_dist := st.2.2.1
    bart := st.2.2.2 }

/-- The message built by `Scraper.post_listing_to_slack` (`scraper.py`
lines 159-163): `"{area} | {price} | {name} | <{url}>"`, reading the
listing dictionary's keys (`KeyError` if `area` was never set). -/
def post_listing_desc (listing : RawListing) : Except PyError PyStr :=
  match listing.area with
  | none => Except.error PyError.keyError
  | some a =>
    Except.ok (a ++ " | ".data ++ listing.price ++ " | ".data ++
      listing.name ++ " | <".data ++ listing.url ++ ">".data)

/-!
## Concrete fixtures used by witnesses and counterexamples
-/

/-- A trivial geocoding collaborator. -/
def wgeo : PyStr → ℚ × ℚ := fun _ => (0, 0)

/-- A fresh, well-formed listing with a geotag and a parsable price. -/
def sample_listing : RawListing :=
  { id := 7
    name := "room".data
    url := "http://x".data
    datetime := "2020-01-01".data
    price := "$750".data
    geotag := some (1, 2)
    whereLoc := some "Capitol Hill".data
    lat := none
    lon := none
    area := none }

/-- `sample_listing` as it comes out of the pipeline: area overwritten with
`"Seattle"`, coordinates copied from the geotag. -/
def sample_result : RawListing :=
  { sample_listing with area := some "Seattle".data, lat := some 1, lon := some 2 }

/-- A listing whose price does not parse as a number. -/
def bad_price_listing : RawListing :=
  { id := 3
    name := "mystery".data
    url := "http://y".data
    datetime := "2020-01-02".data
    price := "contact for price".data
    geotag := none
    whereLoc := some "somewhere".data
    lat := none
    lon := none
    area := none }

/-- A listing with no geotag whose location text tokenizes to zero
fragments. -/
def no_fragment_listing : RawListing :=
  { bad_price_listing with id := 4, price := "$5".data, whereLoc := some "!!!".data }

/-- A database row recording that `cl_id = 42` has already been seen. -/
def seen_entity : ListingEntity :=
  { link := "http://z".data
    created := "2019-12-31".data
    lat := 0
    lon := 0
    name := "old".data
    price := 0
    location := none
    cl_id := 42
    area := "Seattle".data }

/-- A store already containing `seen_entity`. -/
def seen_db : ListingsDB := ⟨[seen_entity]⟩

/-- A listing re-fetched in a later cycle whose identifier `42` is already
recorded in `seen_db`. -/
def dup_listing : RawListing :=
  { sample_listing with id := 42, name := "dup".data }

/-- A distance function for the transit fixtures: the distance to a station
is the station's first coordinate. -/
def exDist : (ℚ × ℚ) → (ℚ × ℚ) → ℚ := fun station _ => station.1

/-- Two stations: `A` at distance `1` (the true minimum) listed first, `B`
at distance `5` listed last; both below the threshold `10`. -/
def exStations : List (PyStr × (ℚ × ℚ)) :=
  [("A".data, (1, 0)), ("B".data, (5, 0))]

/-- Settings with no boxes, the two stations above and threshold `10`. -/
def exSettings : PoiSettings := ⟨[], exStations, 10, []⟩

/-- Settings with no boxes, no stations and two configured neighborhoods,
`"alpha"` first and `"beta"` last. -/
def st8 : PoiSettings := ⟨[], [], 0, ["alpha".data, "beta".data]⟩

/-!
## Helper lemmas
-/

/-- On success, `_create_listing_entity` returns the input dictionary with
only its `area` key overwritten by `"Seattle"`, and an entity whose
`cl_id` is the listing's identifier. -/
theorem create_entity_ok {listing : RawListing} {entity : ListingEntity}
    {listing' : RawListing}
    (h : create_listing_entity listing = Except.ok (entity, listing')) :
    listing' = { listing with area := some "Seattle".data } ∧
    entity.cl_id = listing.id := by
  unfold create_listing_entity at h
  rcases hp : parsePyFloat (pyRemoveDollar listing.price) with _ | price <;>
    rw [hp] at h
  · simp at h
  · simp only [Except.ok.injEq, Prod.mk.injEq] at h
    refine ⟨h.2.symm, ?_⟩
    rw [← h.1]

/-- `update_geographic_information` only writes the `lat`/`lon` keys: the
`area` and `id` of a successfully enriched listing are unchanged. -/
theorem update_geo_ok {geocode : PyStr → ℚ × ℚ} {listing listing' : RawListing}
    (h : update_geographic_information geocode listing = Except.ok listing') :
    listing'.area = listing.area ∧ listing'.id = listing.id := by
  unfold update_geographic_information at h
  split at h
  · simp only [Except.ok.injEq] at h
    rw [← h]
    exact ⟨rfl, rfl⟩
  · split at h
    · exact absurd h (by simp)
    · dsimp only [] at h
      split at h
      · exact absurd h (by simp)
      · simp only [Except.ok.injEq] at h
        rw [← h]
        exact ⟨rfl, rfl⟩

/-- Overwriting the `area` key with the value it already holds is the
identity. -/
theorem set_area_self {listing : RawListing} {a : Option PyStr}
    (h : listing.area = a) : { listing with area := a } = listing := by
  rcases listing with ⟨_, _, _, _, _, _, _, _, _, area0⟩
  simp only at h
  rw [← h]

/-- Two databases with the same rows are equal. -/
theorem ListingsDB.eq_of_rows {a b : ListingsDB} (h : a.rows = b.rows) :
    a = b := by
  rcases a with ⟨ra⟩
  rcases b with ⟨rb⟩
  simp only at h
  rw [h]

/-- A row found by `cl_id` is still found after appending rows. -/
theorem query_append {db : ListingsDB} {i : ℕ} {e : ListingEntity}
    (h : query_by_cl_id db i = some e) (extra : List ListingEntity) :
    query_by_cl_id ⟨db.rows ++ extra⟩ i = some e := by
  rcases db with ⟨rows⟩
  unfold query_by_cl_id at h ⊢
  simp only at h ⊢
  induction rows with
  | nil => simp [List.find?] at h
  | cons a t ih =>
    rcases ha : (a.cl_id == i) with _ | _
    · rw [List.find?_cons_of_neg _ (by simp [ha])] at h
      rw [List.cons_append, List.find?_cons_of_neg _ (by simp [ha])]
      exact ih h
    · rw [List.find?_cons_of_pos _ (by simp [ha])] at h
      rw [List.cons_append, List.find?_cons_of_pos _ (by simp [ha])]
      exact h

/-- One loop iteration of `scrape_area`: the database only grows, and the
`results` accumulator either is unchanged or gains exactly the processed
listing, which then carries its own `id` and area `"Seattle"` and was not
previously recorded. -/
theorem process_listing_spec (geocode : PyStr → ℚ × ℚ)
    (conditions : List (RawListing → Bool)) (db : ListingsDB)
    (results : List RawListing) (listing : RawListing) :
    (∃ extra, (process_listing geocode conditions db results listing).1.rows =
      db.rows ++ extra) ∧
    (∀ results',
      (process_listing geocode conditions db results listing).2 =
        Except.ok results' →
      results' = results ∨
      ∃ l', results' = results ++ [l'] ∧ l'.id = listing.id ∧
        l'.area = some "Seattle".data ∧
        query_by_cl_id db listing.id = none) := by
  unfold process_listing
  rcases hq : query_by_cl_id db listing.id with _ | e <;> dsimp only []
  · rcases hc : create_listing_entity listing with e | p <;> dsimp only []
    · exact ⟨⟨[], by simp⟩, by intro results' h; simp at h⟩
    · rcases p with ⟨entity, l1⟩
      dsimp only []
      obtain ⟨hl1, -⟩ := create_entity_ok hc
      rcases hu : update_geographic_information geocode l1 with e' | l2 <;>
        dsimp only []
      · exact ⟨⟨[entity], rfl⟩, by intro results' h; simp at h⟩
      · obtain ⟨harea, hid⟩ := update_geo_ok hu
        by_cases hgood : check_conditions conditions l2 = true
        · rw [if_pos hgood]
          refine ⟨⟨[entity], rfl⟩, ?_⟩
          intro results' h
          simp only [Except.ok.injEq] at h
          refine Or.inr ⟨l2, h.symm, ?_, ?_, rfl⟩
          · rw [hid, hl1]
          · rw [harea, hl1]
        · rw [if_neg hgood]
          refine ⟨⟨[entity], rfl⟩, ?_⟩
          intro results' h
          simp only [Except.ok.injEq] at h
          exact Or.inl h.symm
  · exact ⟨⟨[], by simp⟩, fun results' h => Or.inl (by simpa using h.symm)⟩

/-- Along the whole per-area loop, every listing added to the accumulator
carries area `"Seattle"`. -/
theorem scrape_loop_area (geocode : PyStr → ℚ × ℚ)
    (conditions : List (RawListing → Bool)) :
    ∀ (listings : List RawListing) (db : ListingsDB)
      (results results' : List RawListing),
      (scrape_area_loop geocode conditions db results listings).2 =
        Except.ok results' →
      ∀ r ∈ results', r ∈ results ∨ r.area = some "Seattle".data := by
  intro listings
  induction listings with
  | nil =>
    intro db results results' h r hr
    unfold scrape_area_loop at h
    simp only [Except.ok.injEq] at h
    subst h
    exact Or.inl hr
  | cons l rest ih =>
    intro db results results' h r hr
    unfold scrape_area_loop at h
    rcases hp : process_listing geocode conditions db results l with ⟨db1, r1⟩
    rw [hp] at h
    rcases r1 with e | results1
    · simp at h
    · have h2 := (process_listing_spec geocode conditions db results l).2 results1
        (by rw [hp])
      rcases ih db1 results1 results' h r hr with hmem | hseattle
      · rcases h2 with rfl | ⟨l', rfl, -, hA, -⟩
        · exact Or.inl hmem
        · rcases List.mem_append.mp hmem with h3 | h3
          · exact Or.inl h3
          · rw [List.mem_singleton.mp h3]
            exact Or.inr hA
      · exact Or.inr hseattle

/-- Along the whole per-area loop, an identifier already recorded in the
database never appears among the accumulated results. -/
theorem scrape_loop_seen_id (geocode : PyStr → ℚ × ℚ)
    (conditions : List (RawListing → Bool)) (i : ℕ) :
    ∀ (listings : List RawListing) (db : ListingsDB)
      (results results' : List RawListing) (e : ListingEntity),
      query_by_cl_id db i = some e →
      (∀ r ∈ results, r.id ≠ i) →
      (scrape_area_loop geocode conditions db results listings).2 =
        Except.ok results' →
      ∀ r ∈ results', r.id ≠ i := by
  intro listings
  induction listings with
  | nil =>
    intro db results results' e hq hres h
    unfold scrape_area_loop at h
    simp only [Except.ok.injEq] at h
    subst h
    exact hres
  | cons l rest ih =>
    intro db results results' e hq hres h
    unfold scrape_area_loop at h
    rcases hp : process_listing geocode conditions db results l with ⟨db1, r1⟩
    rw [hp] at h
    rcases r1 with e' | results1
    · simp at h
    · obtain ⟨⟨extra, hrows⟩, hspec⟩ :=
        process_listing_spec geocode conditions db results l
      rw [hp] at hrows
      have hq1 : query_by_cl_id db1 i = some e := by
        have h2 := query_append hq extra
        rwa [ListingsDB.eq_of_rows (a := (⟨db.rows ++ extra⟩ : ListingsDB))
          (b := db1) hrows.symm] at h2
      have hres1 : ∀ r ∈ results1, r.id ≠ i := by
        intro r hr
        rcases hspec results1 (by rw [hp]) with rfl | ⟨l', rfl, hid, -, hqnone⟩
        · exact hres r hr
        · rcases List.mem_append.mp hr with h3 | h3
          · exact hres r h3
          · rw [List.mem_singleton.mp h3, hid]
            intro hcon
            rw [hcon, hq] at hqnone
            simp at hqnone
      exact ih db1 results1 results' e hq1 hres1 h

/-!
## The claims
-/

/-- C1: a posting whose identifier is already recorded in the store is
skipped whole by the pipeline — the iteration returns the database and the
results accumulator unchanged for every geocoder and every condition set
(so it is neither enriched nor evaluated nor collected nor notified); a
new posting's entity is persisted no matter how enrichment and the
conditions turn out; and a cycle's results never contain a listing whose
identifier was already recorded when the cycle started. -/
theorem C1_dedup_consumed_exactly_once :
    (∀ (geocode : PyStr → ℚ × ℚ) (conditions : List (RawListing → Bool))
      (db : ListingsDB) (results : List RawListing) (listing : RawListing)
      (e : ListingEntity),
      query_by_cl_id db listing.id = some e →
      process_listing geocode conditions db results listing =
        (db, Except.ok results)) ∧
    (∀ (geocode : PyStr → ℚ × ℚ) (conditions : List (RawListing → Bool))
      (db : ListingsDB) (results : List RawListing) (listing : RawListing),
      query_by_cl_id db listing.id = none →
      (process_listing geocode conditions db results listing).1.rows =
        db.rows ++ (match create_listing_entity listing with
                    | Except.ok (entity, _) => [entity]
                    | Except.error _ => [])) ∧
    (∀ (geocode : PyStr → ℚ × ℚ) (conditions : List (RawListing → Bool))
      (db : ListingsDB) (listings : List RawListing) (i : ℕ)
      (e : ListingEntity) (results' : List RawListing),
      query_by_cl_id db i = some e →
      (scrape_area geocode conditions db listings).2 = Except.ok results' →
      ∀ r ∈ results', r.id ≠ i) := by
  refine ⟨?_, ?_, ?_⟩
  · intro geocode conditions db results listing e h
    unfold process_listing
    rw [h]
  · intro geocode conditions db results listing h
    unfold process_listing
    rw [h]
    rcases hc : create_listing_entity listing with e | p <;> dsimp only []
    · simp
    · rcases p with ⟨entity, l1⟩
      dsimp only []
      rcases hu : update_geographic_information geocode l1 with e' | l2 <;>
        dsimp only []
      by_cases hgood : check_conditions conditions l2 = true
      · rw [if_pos hgood]
      · rw [if_neg hgood]
  · intro geocode conditions db listings i e results' hq h
    exact scrape_loop_seen_id geocode conditions i listings db [] results' e hq
      (by intro r hr; simp at hr) h

/-- Witness for C1: the already-recorded `dup_listing` is skipped; a fresh
listing's entity is persisted; the re-fetched identifier `42` is absent
from a cycle's results. -/
theorem C1_witness :
    process_listing wgeo [] seen_db [] dup_listing = (seen_db, Except.ok []) ∧
    (process_listing wgeo [] ⟨[]⟩ [] sample_listing).1.rows =
      ([] : List ListingEntity) ++
        (match create_listing_entity sample_listing with
         | Except.ok (entity, _) => [entity]
         | Except.error _ => []) ∧
    sample_result.id ≠ 42 :=
  ⟨C1_dedup_consumed_exactly_once.1 wgeo [] seen_db [] dup_listing seen_entity rfl,
   C1_dedup_consumed_exactly_once.2.1 wgeo [] ⟨[]⟩ [] sample_listing rfl,
   C1_dedup_consumed_exactly_once.2.2 wgeo [] seen_db
     [dup_listing, sample_listing] 42 seen_entity [sample_result] rfl rfl
     sample_result (by simp)⟩

/-- C2 (refuted by the code): the price `"contact for price"` does not
parse, `float` raises `ValueError`, the `except OverflowError` clause does
not catch it, and the whole batch aborts — the posting is not given the
`-1` sentinel and the remaining listings of the batch are never processed
(nothing is persisted at all). -/
theorem C2_unparsable_price_aborts_batch :
    parsePyFloat (pyRemoveDollar bad_price_listing.price) = none ∧
    create_listing_entity bad_price_listing = Except.error PyError.valueError ∧
    (scrape_area wgeo [] ⟨[]⟩ [bad_price_listing, sample_listing]).2 =
      Except.error PyError.valueError ∧
    (scrape_area wgeo [] ⟨[]⟩ [bad_price_listing, sample_listing]).1.rows = [] :=
  ⟨rfl, rfl, rfl, rfl⟩

/-- C3 (refuted by the code): a posting without geotag whose location text
`"!!!"` tokenizes to zero fragments makes enrichment raise
`ZeroDivisionError` at `avg_lat / count` instead of returning an
unresolved-coordinate sentinel. -/
theorem C3_zero_fragments_division_by_zero :
    parse_locations "!!!".data = Except.ok [] ∧
    no_fragment_listing.geotag = none ∧
    update_geographic_information wgeo no_fragment_listing =
      Except.error PyError.zeroDivisionError :=
  ⟨rfl, rfl, rfl⟩

/-- C4: the condition loop accepts a listing iff every registered condition
accepts it, returns `true` for the empty condition list, and
short-circuits — once some condition rejects, the conditions after it have
no influence on the outcome. -/
theorem C4_condition_set_evaluation :
    (∀ (conditions : List (RawListing → Bool)) (listing : RawListing),
      check_conditions conditions listing =
        conditions.all (fun c => c listing)) ∧
    (∀ listing : RawListing, check_conditions [] listing = true) ∧
    (∀ (pre post post' : List (RawListing → Bool)) (c : RawListing → Bool)
      (listing : RawListing),
      c listing = false →
      check_conditions (pre ++ c :: post) listing =
        check_conditions (pre ++ c :: post') listing) := by
  refine ⟨?_, ?_, ?_⟩
  · intro conditions listing
    induction conditions with
    | nil => rfl
    | cons c rest ih =>
      by_cases h : c listing <;> simp [check_conditions, h, ih]
  · intro listing
    rfl
  · intro pre post post' c listing hc
    induction pre with
    | nil => simp [check_conditions, hc]
    | cons p pre ih =>
      by_cases h : p listing <;> simp [check_conditions, h, ih]

/-- Witness for C4 at concrete condition lists. -/
theorem C4_witness :
    check_conditions [fun _ => true, fun _ => false] sample_listing =
      List.all [fun _ => true, fun _ => false] (fun c => c sample_listing) ∧
    check_conditions [] sample_listing = true ∧
    check_conditions ([fun _ => true] ++ (fun _ => false) :: [fun _ => true])
        sample_listing =
      check_conditions ([fun _ => true] ++ (fun _ => false) :: [fun _ => false])
        sample_listing :=
  ⟨C4_condition_set_evaluation.1 [fun _ => true, fun _ => false] sample_listing,
   C4_condition_set_evaluation.2.1 sample_listing,
   C4_condition_set_evaluation.2.2 [fun _ => true] [fun _ => true]
     [fun _ => false] (fun _ => false) sample_listing rfl⟩

/-- C5 (refuted by the code): on the spec's own example the splitter does
produce the two raw fragments, but the filtering loop calls
`location.tolower()` — a method Python strings do not have — so
`parse_locations` raises `AttributeError` instead of returning the
lower-cased fragments. -/
theorem C5_tokenizer_attribute_error :
    pySplit pySepChar "123 Main St, near Downtown!".data =
      ["123 Main St".data, " near Downtown".data, []] ∧
    parse_locations "123 Main St, near Downtown!".data =
      Except.error PyError.attributeError :=
  ⟨by decide, rfl⟩

/-- C7: `in_box` holds exactly when `box.min.lat < lat < box.max.lat` and
`box.max.lon < lon < box.min.lon`, all strict; in particular both stored
corners of a box are excluded. -/
theorem C7_in_box_strict_bounds :
    (∀ (coords : ℚ × ℚ) (box : (ℚ × ℚ) × (ℚ × ℚ)),
      in_box coords box = true ↔
        (box.1.1 < coords.1 ∧ coords.1 < box.2.1 ∧
         box.2.2 < coords.2 ∧ coords.2 < box.1.2)) ∧
    (∀ box : (ℚ × ℚ) × (ℚ × ℚ),
      in_box box.1 box = false ∧ in_box box.2 box = false) := by
  constructor
  · intro coords box
    unfold in_box
    split <;> simp_all
  · intro box
    constructor <;> (unfold in_box; split <;> simp_all)

/-- Witness for C7 at a concrete coordinate and box. -/
theorem C7_witness :
    in_box ((2 : ℚ), (3 : ℚ)) (((1 : ℚ), (4 : ℚ)), ((3 : ℚ), (2 : ℚ))) = true ↔
      ((1 : ℚ) < 2 ∧ (2 : ℚ) < 3 ∧ (2 : ℚ) < 3 ∧ (3 : ℚ) < 4) :=
  C7_in_box_strict_bounds.1 ((2 : ℚ), (3 : ℚ))
    (((1 : ℚ), (4 : ℚ)), ((3 : ℚ), (2 : ℚ)))

/-- C6 (refuted by the code): with station `A` at distance `1` (the true
minimum, below the threshold `10`) configured before station `B` at
distance `5`, the transit loop — whose `min_dist` is initialized to `None`
and never reassigned — reports the nearest station as `B` with distance
`5`: the last station iterated, not the global minimum attained at `A`. -/
theorem C6_stale_min_dist_tracking :
    exDist (1, 0) (0, 0) = 1 ∧
    exDist (5, 0) (0, 0) = 5 ∧
    (1 : ℚ) < 5 ∧ (5 : ℚ) < 10 ∧
    (find_points_of_interest exDist exSettings (0, 0) []).bart_dist = some 5 ∧
    (find_points_of_interest exDist exSettings (0, 0) []).bart = "B".data ∧
    (find_points_of_interest exDist exSettings (0, 0) []).near_bart = true := by
  refine ⟨rfl, rfl, by norm_num, by norm_num, ?_, ?_, ?_⟩ <;>
    norm_num [find_points_of_interest, exSettings, exStations, exDist, below_min]

/-- If no configured box contains the geotag, the box loop leaves its
accumulator untouched. -/
theorem box_fold_skip (g : ℚ × ℚ) :
    ∀ (boxes : List (PyStr × ((ℚ × ℚ) × (ℚ × ℚ)))) (init : Bool × PyStr),
      (∀ b ∈ boxes, in_box g b.2 = false) →
      boxes.foldl (fun ac b => if in_box g b.2 then (true, b.1) else ac) init =
        init := by
  intro boxes
  induction boxes with
  | nil => intro init _; rfl
  | cons b bs ih =>
    intro init h
    have hb : in_box g b.2 = false := h b (by simp)
    rw [List.foldl_cons, if_neg (by simp [hb])]
    exact ih init (fun x hx => h x (by simp [hx]))

/-- `getD` of `getLast?` of a nonempty list ignores the default. -/
theorem getLast?_cons_getD :
    ∀ (l : List PyStr) (x a0 : PyStr),
      ((x :: l).getLast?).getD a0 = (l.getLast?).getD x := by
  intro l
  induction l with
  | nil => intro x a0; rfl
  | cons y ys ih =>
    intro x a0
    rw [List.getLast?_cons_cons]
    rcases h : (y :: ys).getLast? with _ | z
    · exact absurd h (by simp)
    · rfl

/-- A fold that overwrites its accumulator with each element satisfying `p`
ends at the last satisfying element (or the initial value). -/
theorem hood_fold_last (p : PyStr → Bool) :
    ∀ (l : List PyStr) (a0 : PyStr),
      l.foldl (fun a hood => if p hood then hood else a) a0 =
        ((l.filter p).getLast?).getD a0 := by
  intro l
  induction l with
  | nil => intro a0; rfl
  | cons x xs ih =>
    intro a0
    rw [List.foldl_cons]
    by_cases hx : p x = true
    · rw [if_pos hx, List.filter_cons_of_pos hx, ih x]
      exact (getLast?_cons_getD (xs.filter p) x a0).symm
    · rw [if_neg hx, List.filter_cons_of_neg (by simp [hx]), ih a0]

/-- C8 counterexample: with neighborhoods `["alpha", "beta"]` in configured
order, no boxes, and location `"Alpha Beta"`, the first configured name
that occurs as a substring of the lower-cased location is `"alpha"`, yet
the resulting area is `"beta"`: the fallback loop has no `break`, so the
last match wins, refuting first-match resolution. -/
theorem C8_first_match_refuted :
    st8.boxes = [] ∧
    st8.neighborhoods = ["alpha".data, "beta".data] ∧
    pyInStr "alpha".data (pyLower "Alpha Beta".data) = true ∧
    (find_points_of_interest exDist st8 (0, 0) "Alpha Beta".data).area =
      "beta".data ∧
    "beta".data ≠ "alpha".data :=
  ⟨rfl, rfl, by decide, by decide, by decide⟩

/-- C8 amended: when no configured box contains the coordinate, the
resolved area is the LAST configured neighborhood name (in configured
order) occurring as a substring of the lower-cased location description,
or the empty string when none matches. -/
theorem C8_neighborhood_last_match_wins :
    ∀ (dist : (ℚ × ℚ) → (ℚ × ℚ) → ℚ) (s : PoiSettings) (geotag : ℚ × ℚ)
      (location : PyStr),
      (∀ b ∈ s.boxes, in_box geotag b.2 = false) →
      (find_points_of_interest dist s geotag location).area =
        ((s.neighborhoods.filter
            (fun hood => pyInStr hood (pyLower location))).getLast?).getD [] := by
  intro dist s geotag location hb
  unfold find_points_of_interest
  dsimp only []
  rw [box_fold_skip geotag s.boxes (false, ([] : PyStr)) hb]
  dsimp only []
  rw [if_pos (by simp)]
  exact hood_fold_last _ s.neighborhoods []

/-- Witness for C8 at the concrete counterexample configuration. -/
theorem C8_witness :
    (find_points_of_interest exDist st8 (0, 0) "Alpha Beta".data).area =
      ((st8.neighborhoods.filter
          (fun hood => pyInStr hood (pyLower "Alpha Beta".data))).getLast?).getD
        [] :=
  C8_neighborhood_last_match_wins exDist st8 (0, 0) "Alpha Beta".data
    (by simp [st8])

/-- C9: with a geotag present, enrichment copies it verbatim into
`lat`/`lon` and the result is the same for every geocoding collaborator
(none is consulted). -/
theorem C9_geotag_used_verbatim :
    ∀ (geocode geocode' : PyStr → ℚ × ℚ) (listing : RawListing) (g : ℚ × ℚ),
      listing.geotag = some g →
      update_geographic_information geocode listing =
        Except.ok { listing with lat := some g.1, lon := some g.2 } ∧
      update_geographic_information geocode listing =
        update_geographic_information geocode' listing := by
  intro geocode geocode' listing g h
  constructor <;> simp [update_geographic_information, h]

/-- Witness for C9: `sample_listing` with two different geocoders. -/
theorem C9_witness :
    update_geographic_information wgeo sample_listing =
      Except.ok { sample_listing with lat := some 1, lon := some 2 } ∧
    update_geographic_information wgeo sample_listing =
      update_geographic_information (fun _ => (3, 3)) sample_listing :=
  C9_geotag_used_verbatim wgeo (fun _ => (3, 3)) sample_listing (1, 2) rfl

/-- A listing whose area is already `"Seattle"` cannot distinguish the
registered conditions from their variants that force the area to
`"Seattle"` before checking. -/
theorem check_map_seattle (conditions : List (RawListing → Bool))
    (listing : RawListing) (h : listing.area = some "Seattle".data) :
    check_conditions conditions listing =
      check_conditions
        (conditions.map (fun c l => c { l with area := some "Seattle".data }))
        listing := by
  induction conditions with
  | nil => rfl
  | cons c rest ih =>
    rw [List.map_cons]
    unfold check_conditions
    dsimp only []
    rw [set_area_self h, ih]

/-- C10: every listing a cycle collects carries the constant area
`"Seattle"` written during entity creation — regardless of its
coordinates and location text — so its notification line starts with
`"Seattle | "`; and condition evaluation cannot distinguish the registered
conditions from variants that force the area to `"Seattle"` first,
because the evaluated listings always carry that area.  (The embedded
pipeline contains no call to `find_points_of_interest`: `scraper.py`
never invokes the box/neighborhood area resolution.) -/
theorem C10_area_always_seattle :
    (∀ (geocode : PyStr → ℚ × ℚ) (conditions : List (RawListing → Bool))
      (db : ListingsDB) (listings : List RawListing)
      (results' : List RawListing),
      (scrape_area geocode conditions db listings).2 = Except.ok results' →
      ∀ r ∈ results', r.area = some "Seattle".data ∧
        post_listing_desc r = Except.ok ("Seattle".data ++ " | ".data ++
          r.price ++ " | ".data ++ r.name ++ " | <".data ++ r.url ++
          ">".data)) ∧
    (∀ (geocode : PyStr → ℚ × ℚ) (conditions : List (RawListing → Bool))
      (db : ListingsDB) (results : List RawListing) (listing : RawListing),
      process_listing geocode conditions db results listing =
        process_listing geocode
          (conditions.map (fun c l => c { l with area := some "Seattle".data }))
          db results listing) := by
  constructor
  · intro geocode conditions db listings results' h r hr
    have harea : r.area = some "Seattle".data := by
      rcases scrape_loop_area geocode conditions listings db [] results' h r hr
        with hmem | hA
      · simp at hmem
      · exact hA
    refine ⟨harea, ?_⟩
    unfold post_listing_desc
    rw [harea]
  · intro geocode conditions db results listing
    unfold process_listing
    rcases hq : query_by_cl_id db listing.id with _ | e
    · rcases hc : create_listing_entity listing with e | p
      · rfl
      · rcases p with ⟨entity, l1⟩
        dsimp only []
        obtain ⟨hl1, -⟩ := create_entity_ok hc
        rcases hu : update_geographic_information geocode l1 with e' | l2
        · rfl
        · dsimp only []
          rw [check_map_seattle conditions l2
            (by rw [(update_geo_ok hu).1, hl1])]
    · rfl

/-- Witness for C10: the concrete pipeline result `sample_result` carries
area `"Seattle"` and its notification line, and a concrete condition list
equals its area-forcing variant on `process_listing`. -/
theorem C10_witness :
    sample_result.area = some "Seattle".data ∧
    post_listing_desc sample_result = Except.ok ("Seattle".data ++
      " | ".data ++ sample_result.price ++ " | ".data ++ sample_result.name ++
      " | <".data ++ sample_result.url ++ ">".data) ∧
    process_listing wgeo [fun _ => true] ⟨[]⟩ [] sample_listing =
      process_listing wgeo
        ([fun _ => true].map
          (fun c l => c { l with area := some "Seattle".data }))
        ⟨[]⟩ [] sample_listing :=
  ⟨(C10_area_always_seattle.1 wgeo [] ⟨[]⟩ [sample_listing] [sample_result]
      rfl sample_result (by simp)).1,
   (C10_area_always_seattle.1 wgeo [] ⟨[]⟩ [sample_listing] [sample_result]
      rfl sample_result (by simp)).2,
   C10_area_always_seattle.2 wgeo [fun _ => true] ⟨[]⟩ [] sample_listing⟩

